import Mathlib

/-!
Verification model of the ZMK runtime input processor
(`src/pointing/input_processor_runtime.c`).

Machine integers are modelled as unbounded `Int`/`Nat`; every C store into a
narrower signed type is made explicit with a two's-complement truncation
(`toInt16`, `toInt32`).  C integer division truncates toward zero, which is
`Int.tdiv`/`Int.tmod`.  Unsigned fields (`uint8_t`/`uint16_t`/`uint32_t`) are
modelled as `Nat`.  Deferred work items (`k_work_reschedule`) are modelled by
returning the scheduled delay (`Option Nat`, `some 0` for `K_NO_WAIT`);
`zmk_keymap_layer_activate/deactivate` collaborator calls are modelled by
booleans recording whether the call was made.  The floating-point
`cos`/`sin` computation of `update_rotation_values` has no exact integer
semantics and is abstracted by a `trig` parameter returning the cached
`(cos*1000, sin*1000)` pair; no claim depends on its values.
-/

/-- Two's-complement truncation to a signed 16-bit value, as performed by a C
store into an `int16_t`. -/
def toInt16 (n : Int) : Int := (n + 32768) % 65536 - 32768

/-- Two's-complement truncation to a signed 32-bit value (`int32_t` store). -/
def toInt32 (n : Int) : Int := (n + 2147483648) % 4294967296 - 2147483648

theorem toInt16_eq_self {n : Int} (h1 : -32768 ≤ n) (h2 : n ≤ 32767) :
    toInt16 n = n := by
  unfold toInt16
  omega

theorem toInt32_eq_self {n : Int} (h1 : -2147483648 ≤ n) (h2 : n ≤ 2147483647) :
    toInt32 n = n := by
  unfold toInt32
  omega

/-- Mirror of `struct runtime_processor_data` (the per-channel mutable state),
with the active and persistent copies of every configuration field, the
rotation pairing buffer, the axis-snap accumulator and the temp-layer runtime
state. -/
structure ProcData where
  scale_multiplier : Nat
  scale_divisor : Nat
  rotation_degrees : Int
  persistent_scale_multiplier : Nat
  persistent_scale_divisor : Nat
  persistent_rotation_degrees : Int
  cos_val : Int
  sin_val : Int
  last_x : Int
  last_y : Int
  has_x : Bool
  has_y : Bool
  temp_layer_enabled : Bool
  temp_layer_layer : Nat
  temp_layer_activation_delay_ms : Nat
  temp_layer_deactivation_delay_ms : Nat
  persistent_temp_layer_enabled : Bool
  persistent_temp_layer_layer : Nat
  persistent_temp_layer_activation_delay_ms : Nat
  persistent_temp_layer_deactivation_delay_ms : Nat
  active_layers : Nat
  persistent_active_layers : Nat
  axis_snap_mode : Nat
  axis_snap_threshold : Nat
  axis_snap_timeout_ms : Nat
  persistent_axis_snap_mode : Nat
  persistent_axis_snap_threshold : Nat
  persistent_axis_snap_timeout_ms : Nat
  axis_snap_cross_axis_accum : Int
  axis_snap_last_decay_timestamp : Int
  xy_to_scroll_enabled : Bool
  xy_swap_enabled : Bool
  persistent_xy_to_scroll_enabled : Bool
  persistent_xy_swap_enabled : Bool
  x_invert : Bool
  y_invert : Bool
  persistent_x_invert : Bool
  persistent_y_invert : Bool
  temp_layer_layer_active : Bool
  temp_layer_keep_active : Bool
  last_input_timestamp : Int
  last_keypress_timestamp : Int
deriving DecidableEq

/-- Mirror of the compiled-in defaults in `struct runtime_processor_config`. -/
structure ProcConfig where
  initial_scale_multiplier : Nat
  initial_scale_divisor : Nat
  initial_rotation_degrees : Int
  initial_temp_layer_enabled : Bool
  initial_temp_layer_layer : Nat
  initial_temp_layer_activation_delay_ms : Nat
  initial_temp_layer_deactivation_delay_ms : Nat
  initial_active_layers : Nat
  initial_axis_snap_mode : Nat
  initial_axis_snap_threshold : Nat
  initial_axis_snap_timeout_ms : Nat
  initial_xy_to_scroll_enabled : Bool
  initial_xy_swap_enabled : Bool
  initial_x_invert : Bool
  initial_y_invert : Bool
  temp_layer_keep_keycodes : List Nat
deriving DecidableEq

/-- A channel state with the devicetree default values of
`RUNTIME_PROCESSOR_INST` (scale 1/1, rotation 0, snap threshold 100,
timeout 1000 ms, delays 100/500 ms), used as the base for concrete
evaluations. -/
def baseData : ProcData where
  scale_multiplier := 1
  scale_divisor := 1
  rotation_degrees := 0
  persistent_scale_multiplier := 1
  persistent_scale_divisor := 1
  persistent_rotation_degrees := 0
  cos_val := 1000
  sin_val := 0
  last_x := 0
  last_y := 0
  has_x := false
  has_y := false
  temp_layer_enabled := false
  temp_layer_layer := 0
  temp_layer_activation_delay_ms := 100
  temp_layer_deactivation_delay_ms := 500
  persistent_temp_layer_enabled := false
  persistent_temp_layer_layer := 0
  persistent_temp_layer_activation_delay_ms := 100
  persistent_temp_layer_deactivation_delay_ms := 500
  active_layers := 0
  persistent_active_layers := 0
  axis_snap_mode := 0
  axis_snap_threshold := 100
  axis_snap_timeout_ms := 1000
  persistent_axis_snap_mode := 0
  persistent_axis_snap_threshold := 100
  persistent_axis_snap_timeout_ms := 1000
  axis_snap_cross_axis_accum := 0
  axis_snap_last_decay_timestamp := 0
  xy_to_scroll_enabled := false
  xy_swap_enabled := false
  persistent_xy_to_scroll_enabled := false
  persistent_xy_swap_enabled := false
  x_invert := false
  y_invert := false
  persistent_x_invert := false
  persistent_y_invert := false
  temp_layer_layer_active := false
  temp_layer_keep_active := false
  last_input_timestamp := 0
  last_keypress_timestamp := 0

/-- Body of the `if (data->rotation_degrees != 0)` block of
`runtime_processor_handle_event` (the rotation/pairing stage).  `value` is the
`int16_t value` local; the result is the new state together with the value
written to `event->value` (the `(int16_t)` cast of the `int32_t` rotated
value, or `0` while the pair is incomplete). -/
def rotation_step (d : ProcData) (is_x : Bool) (value : Int) : ProcData × Int :=
  if is_x = true then
    let d1 := { d with last_x := value, has_x := true }
    if d1.has_y = true then
      let rotated_x := toInt32 (d1.last_x * d1.cos_val - d1.last_y * d1.sin_val)
      ({ d1 with has_y := false }, toInt16 (Int.tdiv rotated_x 1000))
    else
      (d1, 0)
  else
    let d1 := { d with last_y := value, has_y := true }
    if d1.has_x = true then
      let rotated_y := toInt32 (d1.last_x * d1.sin_val + d1.last_y * d1.cos_val)
      ({ d1 with has_x := false }, toInt16 (Int.tdiv rotated_y 1000))
    else
      (d1, 0)

/-- Concrete channel state for exercising the rotation pairing: 90° rotation
(cached cos=0, sin=1000) with a Y value of 20 already buffered. -/
def rotPairData : ProcData :=
  { baseData with
    rotation_degrees := 90, cos_val := 0, sin_val := 1000,
    has_y := true, last_y := 20, has_x := false }

/-- C1, counterexample: with rotation 90° and `last_y = 20` buffered, an X
sample of 10 pairs and emits the rotated value, but the code clears only the
opposite flag `has_y`; `has_x` has just been set and stays `true`, so the
claim that both pairing-buffer flags are false afterwards is wrong. -/
theorem rotation_pair_flags_counterexample :
    ¬ ((rotation_step rotPairData true 10).1.has_x = false ∧
       (rotation_step rotPairData true 10).1.has_y = false) := by
  decide

/-- C1 (amended): in the rotation step, for every incoming sample on one axis
with a nonzero configured rotation, if the opposite axis's value is already
buffered then the step emits the fixed-point rotated value
(`x' = (x*cos_val - y*sin_val)/1000` for an X sample,
`y' = (x*sin_val + y*cos_val)/1000` for a Y sample, truncated to `int16_t`)
for this axis call and clears the opposite axis's pairing-buffer flag, while
this axis's own flag remains set (it holds the sample just stored). -/
theorem rotation_pair_emission_and_flags (d : ProcData) (v : Int)
    (hrot : d.rotation_degrees ≠ 0) :
    (d.has_y = true →
      (rotation_step d true v).2 =
        toInt16 (Int.tdiv (toInt32 (v * d.cos_val - d.last_y * d.sin_val)) 1000) ∧
      (rotation_step d true v).1.has_y = false ∧
      (rotation_step d true v).1.has_x = true) ∧
    (d.has_x = true →
      (rotation_step d false v).2 =
        toInt16 (Int.tdiv (toInt32 (d.last_x * d.sin_val + v * d.cos_val)) 1000) ∧
      (rotation_step d false v).1.has_x = false ∧
      (rotation_step d false v).1.has_y = true) := by
  constructor
  · intro hy
    unfold rotation_step
    simp [hy]
  · intro hx
    unfold rotation_step
    simp [hx]

/-- C1 witness: the amended theorem applied at the concrete 90° state. -/
theorem rotation_pair_emission_and_flags_witness :
    rotPairData.rotation_degrees ≠ 0 ∧
    rotPairData.has_y = true ∧
    ((rotation_step rotPairData true 10).2 =
        toInt16 (Int.tdiv (toInt32 (10 * rotPairData.cos_val -
          rotPairData.last_y * rotPairData.sin_val)) 1000) ∧
      (rotation_step rotPairData true 10).1.has_y = false ∧
      (rotation_step rotPairData true 10).1.has_x = true) :=
  ⟨by decide, by decide,
    (rotation_pair_emission_and_flags rotPairData 10 (by decide)).1 (by decide)⟩

/-- Mirror of `scale_val`: `value` is `event->value` (an `int32_t`), `mul` and
`div` the `uint32_t` factors, `rem` the carried `int16_t *state->remainder`.
Every intermediate is an `int16_t` local, hence the `toInt16` truncations; the
division is C truncating division (`Int.tdiv`).  Returns the new
`event->value` and the new remainder.  (When `(int16_t)div` is 0 the C code
divides by zero, which is undefined; Lean's convention `Int.tdiv x 0 = 0`
stands in for it and no theorem relies on that case.) -/
def scale_val (value : Int) (mul div : Nat) (rem : Int) : Int × Int :=
  if mul = 0 ∨ div = 0 then
    (value, rem)
  else
    let value_mul0 : Int := toInt16 (value * toInt16 (mul : Int))
    let value_mul : Int := toInt16 (value_mul0 + rem)
    let scaled : Int := toInt16 (Int.tdiv value_mul (toInt16 (div : Int)))
    (scaled, toInt16 (value_mul - scaled * toInt16 (div : Int)))

/-- Repeated application of the scaling step to a constant input `v`, starting
from remainder 0, returning the sum of emitted values and the final carried
remainder. -/
def scale_run (v : Int) (mul div : Nat) : Nat → Int × Int
  | 0 => (0, 0)
  | n + 1 =>
    let p := scale_run v mul div n
    let s := scale_val v mul div p.2
    (p.1 + s.1, s.2)

theorem tmod_neg_left (a b : Int) : (-a).tmod b = -(a.tmod b) := by
  rw [Int.tmod_def, Int.tmod_def, Int.neg_tdiv]
  ring

theorem tmod_bounds (a : Int) {b : Int} (hb : 0 < b) :
    -b < a.tmod b ∧ a.tmod b < b := by
  rcases le_or_lt 0 a with h | h
  · have h1 := Int.tmod_nonneg b h
    have h2 := Int.tmod_lt_of_pos a hb
    omega
  · have h0 : (0:Int) ≤ -a := by omega
    have h1 := Int.tmod_nonneg b h0
    have h2 := Int.tmod_lt_of_pos (-a) hb
    rw [tmod_neg_left] at h1 h2
    omega

theorem natAbs_tdiv_le (a b : Int) : (Int.tdiv a b).natAbs ≤ a.natAbs := by
  rw [Int.natAbs_tdiv]
  exact Nat.div_le_self _ _

/-- In the overflow-free regime the scaling step computes the exact truncating
division with exact remainder carry. -/
theorem scale_val_exact {v : Int} {mul div : Nat} {rem : Int}
    (hm : 0 < mul) (hd : 0 < div)
    (hbound : v.natAbs * mul + div ≤ 32767) (hrem : rem.natAbs < div) :
    scale_val v mul div rem =
      (Int.tdiv (v * mul + rem) div, Int.tmod (v * mul + rem) div) := by
  have hdivK : (div : Int) ≤ 32767 := by
    have : div ≤ 32767 := by omega
    exact_mod_cast this
  have hdiv16 : toInt16 (div : Int) = (div : Int) := by
    apply toInt16_eq_self <;> omega
  have hvmul : v * toInt16 (mul : Int) = v * (mul : Int) := by
    rcases eq_or_ne v 0 with hv | hv
    · simp [hv]
    · have hv1 : 1 ≤ v.natAbs := by
        rcases v with n | n
        · cases n with
          | zero => simp at hv
          | succ k => simp [Int.natAbs]
        · simp [Int.natAbs]
      have hmulK : mul ≤ 32767 := by nlinarith
      have : toInt16 (mul : Int) = (mul : Int) := by
        apply toInt16_eq_self <;> [omega; exact_mod_cast hmulK]
      rw [this]
  have habs : (v * (mul : Int)).natAbs = v.natAbs * mul := by
    rw [Int.natAbs_mul, Int.natAbs_ofNat]
  have hvm16 : toInt16 (v * (mul : Int)) = v * (mul : Int) := by
    apply toInt16_eq_self <;> omega
  have hsum16 : toInt16 (v * (mul : Int) + rem) = v * (mul : Int) + rem := by
    apply toInt16_eq_self <;> omega
  set A := v * (mul : Int) + rem with hA
  have hq : (Int.tdiv A (div : Int)).natAbs ≤ A.natAbs := natAbs_tdiv_le _ _
  have hAabs : A.natAbs ≤ 32766 := by omega
  have hq16 : toInt16 (Int.tdiv A (div : Int)) = Int.tdiv A (div : Int) := by
    apply toInt16_eq_self <;> omega
  have hdpos : (0:Int) < (div : Int) := by exact_mod_cast hd
  have hrval : A - Int.tdiv A (div : Int) * (div : Int) = Int.tmod A (div : Int) := by
    have := Int.tdiv_add_tmod A (div : Int)
    linarith [this]
  have hrb := tmod_bounds A hdpos
  have hr16 : toInt16 (Int.tmod A (div : Int)) = Int.tmod A (div : Int) := by
    apply toInt16_eq_self <;> omega
  have hmul0 : ¬ (mul = 0 ∨ div = 0) := by omega
  unfold scale_val
  rw [if_neg hmul0]
  simp only [hvmul, hvm16, hsum16, hdiv16, ← hA, hq16, hrval, hr16]

/-- Invariant of the iterated scaler: `div * sum + rem = N * v * mul` exactly,
with the carried remainder strictly smaller than the divisor. -/
theorem scale_run_invariant (v : Int) (mul div : Nat)
    (hm : 0 < mul) (hd : 0 < div) (hbound : v.natAbs * mul + div ≤ 32767) :
    ∀ N : Nat,
      (div : Int) * (scale_run v mul div N).1 + (scale_run v mul div N).2 =
        (N : Int) * (v * (mul : Int)) ∧
      (scale_run v mul div N).2.natAbs < div := by
  intro N
  induction N with
  | zero => simp [scale_run, hd]
  | succ n ih =>
    obtain ⟨h1, h2⟩ := ih
    have hsv := @scale_val_exact v mul div (scale_run v mul div n).2 hm hd hbound h2
    have hdpos : (0:Int) < (div : Int) := by exact_mod_cast hd
    have hrb := tmod_bounds (v * (mul : Int) + (scale_run v mul div n).2) hdpos
    have hrun : scale_run v mul div (n + 1) =
        ((scale_run v mul div n).1 + (scale_val v mul div (scale_run v mul div n).2).1,
          (scale_val v mul div (scale_run v mul div n).2).2) := rfl
    rw [hrun, hsv]
    have htdm := Int.tdiv_add_tmod
      (v * (mul : Int) + (scale_run v mul div n).2) (div : Int)
    constructor
    · push_cast
      linear_combination h1 + htdm
    · omega

/-- C3, counterexample: with multiplier 100, divisor 1 and constant input
328, a single application of the scaling step overflows the `int16_t`
intermediate (`328*100 = 32800` wraps to `-32736`), so the emitted sum is
65536 away from `N*v*multiplier/divisor`, not within 1. -/
theorem scaling_ratio_counterexample :
    ¬ (|((scale_run 328 100 1 1).1 : ℚ) - ((1 : ℚ) * 328 * 100) / 1| ≤ 1) := by
  have h : (scale_run 328 100 1 1).1 = -32736 := by decide
  rw [h]
  norm_num

/-- C3 (amended): for every multiplier > 0, divisor > 0 and constant input
value `v` small enough that the `int16_t` intermediate never overflows
(`|v|*multiplier + divisor ≤ 32767`), applying the scaling step N times with
the carried remainder yields emitted values whose sum differs from
`N*v*multiplier/divisor` by at most 1. -/
theorem scaling_long_run_ratio (v : Int) (mul div : Nat) (N : Nat)
    (hm : 0 < mul) (hd : 0 < div) (hbound : v.natAbs * mul + div ≤ 32767) :
    |((scale_run v mul div N).1 : ℚ) -
        ((N : ℚ) * (v : ℚ) * (mul : ℚ)) / (div : ℚ)| ≤ 1 := by
  obtain ⟨h1, h2⟩ := scale_run_invariant v mul div hm hd hbound N
  have hdq : (0:ℚ) < (div : ℚ) := by exact_mod_cast hd
  have key : ((scale_run v mul div N).1 : ℚ) -
      ((N : ℚ) * (v : ℚ) * (mul : ℚ)) / (div : ℚ) =
      -(((scale_run v mul div N).2 : ℚ)) / (div : ℚ) := by
    field_simp
    have h1q : (div : ℚ) * ((scale_run v mul div N).1 : ℚ) +
        ((scale_run v mul div N).2 : ℚ) =
        (N : ℚ) * ((v : ℚ) * (mul : ℚ)) := by exact_mod_cast h1
    ring_nf
    ring_nf at h1q
    linarith [h1q]
  rw [key, abs_div, abs_neg, abs_of_pos hdq, div_le_one hdq]
  have hlo : -(div : Int) ≤ (scale_run v mul div N).2 := by omega
  have hhi : (scale_run v mul div N).2 ≤ (div : Int) := by omega
  rw [abs_le]
  exact ⟨by exact_mod_cast hlo, by exact_mod_cast hhi⟩

/-- C3 witness: scale 3/2 applied 5 times to constant input 3 sums to 22,
within 1 of 45/2. -/
theorem scaling_long_run_ratio_witness :
    0 < 3 ∧ 0 < 2 ∧ (3 : Int).natAbs * 3 + 2 ≤ 32767 ∧
    |((scale_run 3 3 2 5).1 : ℚ) - ((5 : ℚ) * ((3:Int) : ℚ) * (3 : ℚ)) / (2 : ℚ)| ≤ 1 :=
  ⟨by decide, by decide, by decide,
    scaling_long_run_ratio 3 3 2 5 (by decide) (by decide) (by decide)⟩

/-- Mirror of `update_rotation_values`.  For a nonzero angle the C function
computes `(int32_t)(cos(angle)*1000)` and `(int32_t)(sin(angle)*1000)` in
floating point; that computation is abstracted by the `trig` parameter, while
the exact zero-angle case (`cos_val = 1000`, `sin_val = 0`) is kept.  Both C
branches write exactly the two cached fields, expressed here as one record
update. -/
def update_rotation_values (trig : Int → Int × Int) (d : ProcData) : ProcData :=
  { d with
    cos_val := if d.rotation_degrees = 0 then 1000 else (trig d.rotation_degrees).1,
    sin_val := if d.rotation_degrees = 0 then 0 else (trig d.rotation_degrees).2 }

/-- Result of a configuration setter: the new channel state, the C return
value (`0` success, `-22` for `-EINVAL`; the nonnegative success codes of
`k_work_reschedule` are collapsed to 0), and whether a debounced save was
scheduled and a state-changed event raised (both happen exactly for
persistent calls, with `CONFIG_SETTINGS` enabled). -/
structure SetOut where
  data : ProcData
  ret : Int
  save_scheduled : Bool
  event_raised : Bool
deriving DecidableEq

/-- Mirror of `zmk_input_processor_runtime_set_scaling`: each factor is
applied only when nonzero (a zero factor is silently skipped, not rejected),
and the persistent copy is additionally written when `persistent`. -/
def zmk_input_processor_runtime_set_scaling (d : ProcData) (multiplier divisor : Nat)
    (persistent : Bool) : SetOut :=
  let d1 :=
    if 0 < multiplier then
      { d with
        scale_multiplier := multiplier,
        persistent_scale_multiplier :=
          if persistent then multiplier else d.persistent_scale_multiplier }
    else d
  let d2 :=
    if 0 < divisor then
      { d1 with
        scale_divisor := divisor,
        persistent_scale_divisor :=
          if persistent then divisor else d1.persistent_scale_divisor }
    else d1
  { data := d2, ret := 0, save_scheduled := persistent, event_raised := persistent }

/-- Mirror of `zmk_input_processor_runtime_set_rotation`. -/
def zmk_input_processor_runtime_set_rotation (trig : Int → Int × Int) (d : ProcData)
    (degrees : Int) (persistent : Bool) : SetOut :=
  let d1 :=
    { d with
      rotation_degrees := degrees,
      persistent_rotation_degrees :=
        if persistent then degrees else d.persistent_rotation_degrees }
  { data := update_rotation_values trig d1, ret := 0,
    save_scheduled := persistent, event_raised := persistent }

/-- Mirror of `zmk_input_processor_runtime_set_temp_layer`. -/
def zmk_input_processor_runtime_set_temp_layer (d : ProcData) (enabled : Bool)
    (layer act_delay deact_delay : Nat) (persistent : Bool) : SetOut :=
  let d1 :=
    { d with
      temp_layer_enabled := enabled,
      temp_layer_layer := layer,
      temp_layer_activation_delay_ms := act_delay,
      temp_layer_deactivation_delay_ms := deact_delay,
      persistent_temp_layer_enabled :=
        if persistent then enabled else d.persistent_temp_layer_enabled,
      persistent_temp_layer_layer :=
        if persistent then layer else d.persistent_temp_layer_layer,
      persistent_temp_layer_activation_delay_ms :=
        if persistent then act_delay else d.persistent_temp_layer_activation_delay_ms,
      persistent_temp_layer_deactivation_delay_ms :=
        if persistent then deact_delay else d.persistent_temp_layer_deactivation_delay_ms }
  { data := d1, ret := 0, save_scheduled := persistent, event_raised := persistent }

/-- Mirror of `zmk_input_processor_runtime_set_temp_layer_enabled`. -/
def zmk_input_processor_runtime_set_temp_layer_enabled (d : ProcData) (enabled : Bool)
    (persistent : Bool) : SetOut :=
  { data :=
      { d with
        temp_layer_enabled := enabled,
        persistent_temp_layer_enabled :=
          if persistent then enabled else d.persistent_temp_layer_enabled },
    ret := 0, save_scheduled := persistent, event_raised := persistent }

/-- Mirror of `zmk_input_processor_runtime_set_temp_layer_layer`. -/
def zmk_input_processor_runtime_set_temp_layer_layer (d : ProcData) (layer : Nat)
    (persistent : Bool) : SetOut :=
  { data :=
      { d with
        temp_layer_layer := layer,
        persistent_temp_layer_layer :=
          if persistent then layer else d.persistent_temp_layer_layer },
    ret := 0, save_scheduled := persistent, event_raised := persistent }

/-- Mirror of `zmk_input_processor_runtime_set_temp_layer_activation_delay`. -/
def zmk_input_processor_runtime_set_temp_layer_activation_delay (d : ProcData)
    (act_delay : Nat) (persistent : Bool) : SetOut :=
  { data :=
      { d with
        temp_layer_activation_delay_ms := act_delay,
        persistent_temp_layer_activation_delay_ms :=
          if persistent then act_delay else d.persistent_temp_layer_activation_delay_ms },
    ret := 0, save_scheduled := persistent, event_raised := persistent }

/-- Mirror of `zmk_input_processor_runtime_set_temp_layer_deactivation_delay`. -/
def zmk_input_processor_runtime_set_temp_layer_deactivation_delay (d : ProcData)
    (deact_delay : Nat) (persistent : Bool) : SetOut :=
  { data :=
      { d with
        temp_layer_deactivation_delay_ms := deact_delay,
        persistent_temp_layer_deactivation_delay_ms :=
          if persistent then deact_delay
          else d.persistent_temp_layer_deactivation_delay_ms },
    ret := 0, save_scheduled := persistent, event_raised := persistent }

/-- Mirror of `zmk_input_processor_runtime_set_active_layers`. -/
def zmk_input_processor_runtime_set_active_layers (d : ProcData) (layers : Nat)
    (persistent : Bool) : SetOut :=
  { data :=
      { d with
        active_layers := layers,
        persistent_active_layers :=
          if persistent then layers else d.persistent_active_layers },
    ret := 0, save_scheduled := persistent, event_raised := persistent }

/-- Mirror of `zmk_input_processor_runtime_set_axis_snap_mode`: rejects modes
above `ZMK_INPUT_PROCESSOR_AXIS_SNAP_MODE_Y = 2` with `-EINVAL` and no
mutation; a valid mode also resets the cross-axis accumulator. -/
def zmk_input_processor_runtime_set_axis_snap_mode (d : ProcData) (mode : Nat)
    (persistent : Bool) : SetOut :=
  if 2 < mode then
    { data := d, ret := -22, save_scheduled := false, event_raised := false }
  else
    { data :=
        { d with
          axis_snap_mode := mode,
          axis_snap_cross_axis_accum := 0,
          persistent_axis_snap_mode :=
            if persistent then mode else d.persistent_axis_snap_mode },
      ret := 0, save_scheduled := persistent, event_raised := persistent }

/-- Mirror of `zmk_input_processor_runtime_set_axis_snap_threshold`. -/
def zmk_input_processor_runtime_set_axis_snap_threshold (d : ProcData) (threshold : Nat)
    (persistent : Bool) : SetOut :=
  { data :=
      { d with
        axis_snap_threshold := threshold,
        persistent_axis_snap_threshold :=
          if persistent then threshold else d.persistent_axis_snap_threshold },
    ret := 0, save_scheduled := persistent, event_raised := persistent }

/-- Mirror of `zmk_input_processor_runtime_set_axis_snap_timeout`. -/
def zmk_input_processor_runtime_set_axis_snap_timeout (d : ProcData) (timeout_ms : Nat)
    (persistent : Bool) : SetOut :=
  { data :=
      { d with
        axis_snap_timeout_ms := timeout_ms,
        persistent_axis_snap_timeout_ms :=
          if persistent then timeout_ms else d.persistent_axis_snap_timeout_ms },
    ret := 0, save_scheduled := persistent, event_raised := persistent }

/-- Mirror of `zmk_input_processor_runtime_set_axis_snap` (combined setter):
validates the mode like the mode setter and resets the accumulator. -/
def zmk_input_processor_runtime_set_axis_snap (d : ProcData) (mode threshold timeout_ms : Nat)
    (persistent : Bool) : SetOut :=
  if 2 < mode then
    { data := d, ret := -22, save_scheduled := false, event_raised := false }
  else
    { data :=
        { d with
          axis_snap_mode := mode,
          axis_snap_threshold := threshold,
          axis_snap_timeout_ms := timeout_ms,
          axis_snap_cross_axis_accum := 0,
          persistent_axis_snap_mode :=
            if persistent then mode else d.persistent_axis_snap_mode,
          persistent_axis_snap_threshold :=
            if persistent then threshold else d.persistent_axis_snap_threshold,
          persistent_axis_snap_timeout_ms :=
            if persistent then timeout_ms else d.persistent_axis_snap_timeout_ms },
      ret := 0, save_scheduled := persistent, event_raised := persistent }

/-- Mirror of `zmk_input_processor_runtime_set_x_invert`. -/
def zmk_input_processor_runtime_set_x_invert (d : ProcData) (invert : Bool)
    (persistent : Bool) : SetOut :=
  { data :=
      { d with
        x_invert := invert,
        persistent_x_invert := if persistent then invert else d.persistent_x_invert },
    ret := 0, save_scheduled := persistent, event_raised := persistent }

/-- Mirror of `zmk_input_processor_runtime_set_y_invert`. -/
def zmk_input_processor_runtime_set_y_invert (d : ProcData) (invert : Bool)
    (persistent : Bool) : SetOut :=
  { data :=
      { d with
        y_invert := invert,
        persistent_y_invert := if persistent then invert else d.persistent_y_invert },
    ret := 0, save_scheduled := persistent, event_raised := persistent }

/-- Mirror of `zmk_input_processor_runtime_set_xy_to_scroll_enabled`. -/
def zmk_input_processor_runtime_set_xy_to_scroll_enabled (d : ProcData) (enabled : Bool)
    (persistent : Bool) : SetOut :=
  { data :=
      { d with
        xy_to_scroll_enabled := enabled,
        persistent_xy_to_scroll_enabled :=
          if persistent then enabled else d.persistent_xy_to_scroll_enabled },
    ret := 0, save_scheduled := persistent, event_raised := persistent }

/-- Mirror of `zmk_input_processor_runtime_set_xy_swap_enabled`. -/
def zmk_input_processor_runtime_set_xy_swap_enabled (d : ProcData) (enabled : Bool)
    (persistent : Bool) : SetOut :=
  { data :=
      { d with
        xy_swap_enabled := enabled,
        persistent_xy_swap_enabled :=
          if persistent then enabled else d.persistent_xy_swap_enabled },
    ret := 0, save_scheduled := persistent, event_raised := persistent }

/-- Result of `zmk_input_processor_runtime_reset`: the new state, whether the
layer-deactivate collaborator was called, and the (unconditional) save
scheduling and event notification. -/
structure ResetOut where
  data : ProcData
  deactivate_called : Bool
  save_scheduled : Bool
  event_raised : Bool
deriving DecidableEq

/-- Mirror of `zmk_input_processor_runtime_reset`: reinitializes scaling,
rotation, temp-layer, active-layers and axis-invert fields (both copies) from
the compiled-in defaults, deactivates the temp layer if active (clearing the
flag unconditionally after the collaborator call) and recomputes the cached
rotation values; it then schedules a save and raises the state-changed
event.  Note the axis-snap and code-mapping fields are not touched. -/
def zmk_input_processor_runtime_reset (trig : Int → Int × Int) (cfg : ProcConfig)
    (d : ProcData) : ResetOut :=
  let d1 :=
    { d with
      scale_multiplier := cfg.initial_scale_multiplier,
      scale_divisor := cfg.initial_scale_divisor,
      rotation_degrees := cfg.initial_rotation_degrees,
      persistent_scale_multiplier := cfg.initial_scale_multiplier,
      persistent_scale_divisor := cfg.initial_scale_divisor,
      persistent_rotation_degrees := cfg.initial_rotation_degrees,
      temp_layer_enabled := cfg.initial_temp_layer_enabled,
      temp_layer_layer := cfg.initial_temp_layer_layer,
      temp_layer_activation_delay_ms := cfg.initial_temp_layer_activation_delay_ms,
      temp_layer_deactivation_delay_ms := cfg.initial_temp_layer_deactivation_delay_ms,
      persistent_temp_layer_enabled := cfg.initial_temp_layer_enabled,
      persistent_temp_layer_layer := cfg.initial_temp_layer_layer,
      persistent_temp_layer_activation_delay_ms :=
        cfg.initial_temp_layer_activation_delay_ms,
      persistent_temp_layer_deactivation_delay_ms :=
        cfg.initial_temp_layer_deactivation_delay_ms,
      active_layers := cfg.initial_active_layers,
      persistent_active_layers := cfg.initial_active_layers,
      temp_layer_layer_active := false,
      x_invert := cfg.initial_x_invert,
      y_invert := cfg.initial_y_invert,
      persistent_x_invert := cfg.initial_x_invert,
      persistent_y_invert := cfg.initial_y_invert }
  { data := update_rotation_values trig d1,
    deactivate_called := d.temp_layer_layer_active,
    save_scheduled := true,
    event_raised := true }

/-- Mirror of `zmk_input_processor_runtime_restore_persistent`: copies the
persistent scaling, rotation, axis-snap and axis-invert values into the
active ones, recomputes the cached rotation values, and resets the axis-snap
runtime state (accumulator and decay timestamp). -/
def zmk_input_processor_runtime_restore_persistent (trig : Int → Int × Int)
    (d : ProcData) : ProcData :=
  let d1 := update_rotation_values trig
    { d with
      scale_multiplier := d.persistent_scale_multiplier,
      scale_divisor := d.persistent_scale_divisor,
      rotation_degrees := d.persistent_rotation_degrees }
  { d1 with
    axis_snap_mode := d.persistent_axis_snap_mode,
    axis_snap_threshold := d.persistent_axis_snap_threshold,
    axis_snap_timeout_ms := d.persistent_axis_snap_timeout_ms,
    axis_snap_cross_axis_accum := 0,
    axis_snap_last_decay_timestamp := 0,
    x_invert := d.persistent_x_invert,
    y_invert := d.persistent_y_invert }

/-- Mirror of `struct zmk_input_processor_runtime_config` as populated by
`zmk_input_processor_runtime_get_config` in the C source (which also fills
the code-mapping and invert fields). -/
structure RuntimeConfigSnapshot where
  scale_multiplier : Nat
  scale_divisor : Nat
  rotation_degrees : Int
  temp_layer_enabled : Bool
  temp_layer_layer : Nat
  temp_layer_activation_delay_ms : Nat
  temp_layer_deactivation_delay_ms : Nat
  active_layers : Nat
  axis_snap_mode : Nat
  axis_snap_threshold : Nat
  axis_snap_timeout_ms : Nat
  xy_to_scroll_enabled : Bool
  xy_swap_enabled : Bool
  x_invert : Bool
  y_invert : Bool
deriving DecidableEq

/-- Mirror of `zmk_input_processor_runtime_get_config` (the `config` output
parameter; the name output is identity and omitted). -/
def zmk_input_processor_runtime_get_config (d : ProcData) : RuntimeConfigSnapshot where
  scale_multiplier := d.persistent_scale_multiplier
  scale_divisor := d.persistent_scale_divisor
  rotation_degrees := d.persistent_rotation_degrees
  temp_layer_enabled := d.persistent_temp_layer_enabled
  temp_layer_layer := d.persistent_temp_layer_layer
  temp_layer_activation_delay_ms := d.persistent_temp_layer_activation_delay_ms
  temp_layer_deactivation_delay_ms := d.persistent_temp_layer_deactivation_delay_ms
  active_layers := d.persistent_active_layers
  axis_snap_mode := d.persistent_axis_snap_mode
  axis_snap_threshold := d.persistent_axis_snap_threshold
  axis_snap_timeout_ms := d.persistent_axis_snap_timeout_ms
  xy_to_scroll_enabled := d.persistent_xy_to_scroll_enabled
  xy_swap_enabled := d.persistent_xy_swap_enabled
  x_invert := d.persistent_x_invert
  y_invert := d.persistent_y_invert

/-- Compiled-in defaults matching `baseData`, for concrete evaluations. -/
def baseConfig : ProcConfig where
  initial_scale_multiplier := 1
  initial_scale_divisor := 1
  initial_rotation_degrees := 0
  initial_temp_layer_enabled := false
  initial_temp_layer_layer := 0
  initial_temp_layer_activation_delay_ms := 100
  initial_temp_layer_deactivation_delay_ms := 500
  initial_active_layers := 0
  initial_axis_snap_mode := 0
  initial_axis_snap_threshold := 100
  initial_axis_snap_timeout_ms := 1000
  initial_xy_to_scroll_enabled := false
  initial_xy_swap_enabled := false
  initial_x_invert := false
  initial_y_invert := false
  temp_layer_keep_keycodes := []

/-- Placeholder for the abstracted trigonometry cache (the identity rotation
pair), used for concrete evaluations. -/
def trigZero : Int → Int × Int := fun _ => (1000, 0)

/-- C2, counterexample: a channel whose active axis-snap mode was changed to
2 keeps that mode across `reset()` — the compiled-in default mode 0 is not
restored, so `reset` does not reinitialize every configuration field. -/
theorem reset_axis_snap_counterexample :
    (zmk_input_processor_runtime_reset trigZero baseConfig
        { baseData with axis_snap_mode := 2 }).data.axis_snap_mode ≠
      baseConfig.initial_axis_snap_mode := by
  decide

/-- C2 (amended): `reset()` reinitializes both the active and the persistent
copies of the scaling, rotation, temp-layer, active-layers-mask and
axis-invert fields to the compiled-in defaults, deactivates the temp layer if
it was active (calling the layer collaborator exactly when it was active),
and schedules a persistent save plus a configuration-changed notification;
the axis-snap and code-mapping fields (both copies) are left unchanged. -/
theorem reset_reinitializes_fields (trig : Int → Int × Int) (cfg : ProcConfig)
    (d : ProcData) :
    (zmk_input_processor_runtime_reset trig cfg d).data.scale_multiplier =
        cfg.initial_scale_multiplier ∧
    (zmk_input_processor_runtime_reset trig cfg d).data.scale_divisor =
        cfg.initial_scale_divisor ∧
    (zmk_input_processor_runtime_reset trig cfg d).data.rotation_degrees =
        cfg.initial_rotation_degrees ∧
    (zmk_input_processor_runtime_reset trig cfg d).data.persistent_scale_multiplier =
        cfg.initial_scale_multiplier ∧
    (zmk_input_processor_runtime_reset trig cfg d).data.persistent_scale_divisor =
        cfg.initial_scale_divisor ∧
    (zmk_input_processor_runtime_reset trig cfg d).data.persistent_rotation_degrees =
        cfg.initial_rotation_degrees ∧
    (zmk_input_processor_runtime_reset trig cfg d).data.temp_layer_enabled =
        cfg.initial_temp_layer_enabled ∧
    (zmk_input_processor_runtime_reset trig cfg d).data.temp_layer_layer =
        cfg.initial_temp_layer_layer ∧
    (zmk_input_processor_runtime_reset trig cfg d).data.temp_layer_activation_delay_ms =
        cfg.initial_temp_layer_activation_delay_ms ∧
    (zmk_input_processor_runtime_reset trig cfg d).data.temp_layer_deactivation_delay_ms =
        cfg.initial_temp_layer_deactivation_delay_ms ∧
    (zmk_input_processor_runtime_reset trig cfg d).data.persistent_temp_layer_enabled =
        cfg.initial_temp_layer_enabled ∧
    (zmk_input_processor_runtime_reset trig cfg d).data.persistent_temp_layer_layer =
        cfg.initial_temp_layer_layer ∧
    (zmk_input_processor_runtime_reset trig cfg
        d).data.persistent_temp_layer_activation_delay_ms =
        cfg.initial_temp_layer_activation_delay_ms ∧
    (zmk_input_processor_runtime_reset trig cfg
        d).data.persistent_temp_layer_deactivation_delay_ms =
        cfg.initial_temp_layer_deactivation_delay_ms ∧
    (zmk_input_processor_runtime_reset trig cfg d).data.active_layers =
        cfg.initial_active_layers ∧
    (zmk_input_processor_runtime_reset trig cfg d).data.persistent_active_layers =
        cfg.initial_active_layers ∧
    (zmk_input_processor_runtime_reset trig cfg d).data.x_invert = cfg.initial_x_invert ∧
    (zmk_input_processor_runtime_reset trig cfg d).data.y_invert = cfg.initial_y_invert ∧
    (zmk_input_processor_runtime_reset trig cfg d).data.persistent_x_invert =
        cfg.initial_x_invert ∧
    (zmk_input_processor_runtime_reset trig cfg d).data.persistent_y_invert =
        cfg.initial_y_invert ∧
    (zmk_input_processor_runtime_reset trig cfg d).data.temp_layer_layer_active = false ∧
    (zmk_input_processor_runtime_reset trig cfg d).deactivate_called =
        d.temp_layer_layer_active ∧
    (zmk_input_processor_runtime_reset trig cfg d).save_scheduled = true ∧
    (zmk_input_processor_runtime_reset trig cfg d).event_raised = true ∧
    (zmk_input_processor_runtime_reset trig cfg d).data.axis_snap_mode =
        d.axis_snap_mode ∧
    (zmk_input_processor_runtime_reset trig cfg d).data.axis_snap_threshold =
        d.axis_snap_threshold ∧
    (zmk_input_processor_runtime_reset trig cfg d).data.axis_snap_timeout_ms =
        d.axis_snap_timeout_ms ∧
    (zmk_input_processor_runtime_reset trig cfg d).data.persistent_axis_snap_mode =
        d.persistent_axis_snap_mode ∧
    (zmk_input_processor_runtime_reset trig cfg d).data.persistent_axis_snap_threshold =
        d.persistent_axis_snap_threshold ∧
    (zmk_input_processor_runtime_reset trig cfg d).data.persistent_axis_snap_timeout_ms =
        d.persistent_axis_snap_timeout_ms ∧
    (zmk_input_processor_runtime_reset trig cfg d).data.xy_to_scroll_enabled =
        d.xy_to_scroll_enabled ∧
    (zmk_input_processor_runtime_reset trig cfg d).data.xy_swap_enabled =
        d.xy_swap_enabled ∧
    (zmk_input_processor_runtime_reset trig cfg d).data.persistent_xy_to_scroll_enabled =
        d.persistent_xy_to_scroll_enabled ∧
    (zmk_input_processor_runtime_reset trig cfg d).data.persistent_xy_swap_enabled =
        d.persistent_xy_swap_enabled :=
  ⟨rfl, rfl, rfl, rfl, rfl, rfl, rfl, rfl, rfl, rfl, rfl, rfl, rfl, rfl, rfl, rfl,
    rfl, rfl, rfl, rfl, rfl, rfl, rfl, rfl, rfl, rfl, rfl, rfl, rfl, rfl, rfl, rfl,
    rfl, rfl⟩

/-- C7 (confirmed): `restore_persistent()` copies persistent to active for
exactly the scaling, rotation, axis-snap and axis-invert fields, resets the
axis-snap cross-axis accumulator (and decay timestamp) to zero, and leaves
the temp-layer fields, the code-mapping fields and the active-layers mask
(and every persistent copy) unchanged. -/
theorem restore_persistent_fields (trig : Int → Int × Int) (d : ProcData) :
    (zmk_input_processor_runtime_restore_persistent trig d).scale_multiplier =
        d.persistent_scale_multiplier ∧
    (zmk_input_processor_runtime_restore_persistent trig d).scale_divisor =
        d.persistent_scale_divisor ∧
    (zmk_input_processor_runtime_restore_persistent trig d).rotation_degrees =
        d.persistent_rotation_degrees ∧
    (zmk_input_processor_runtime_restore_persistent trig d).axis_snap_mode =
        d.persistent_axis_snap_mode ∧
    (zmk_input_processor_runtime_restore_persistent trig d).axis_snap_threshold =
        d.persistent_axis_snap_threshold ∧
    (zmk_input_processor_runtime_restore_persistent trig d).axis_snap_timeout_ms =
        d.persistent_axis_snap_timeout_ms ∧
    (zmk_input_processor_runtime_restore_persistent trig d).x_invert =
        d.persistent_x_invert ∧
    (zmk_input_processor_runtime_restore_persistent trig d).y_invert =
        d.persistent_y_invert ∧
    (zmk_input_processor_runtime_restore_persistent trig d).axis_snap_cross_axis_accum = 0 ∧
    (zmk_input_processor_runtime_restore_persistent trig d).axis_snap_last_decay_timestamp
        = 0 ∧
    (zmk_input_processor_runtime_restore_persistent trig d).temp_layer_enabled =
        d.temp_layer_enabled ∧
    (zmk_input_processor_runtime_restore_persistent trig d).temp_layer_layer =
        d.temp_layer_layer ∧
    (zmk_input_processor_runtime_restore_persistent trig d).temp_layer_activation_delay_ms
        = d.temp_layer_activation_delay_ms ∧
    (zmk_input_processor_runtime_restore_persistent trig
        d).temp_layer_deactivation_delay_ms = d.temp_layer_deactivation_delay_ms ∧
    (zmk_input_processor_runtime_restore_persistent trig d).xy_to_scroll_enabled =
        d.xy_to_scroll_enabled ∧
    (zmk_input_processor_runtime_restore_persistent trig d).xy_swap_enabled =
        d.xy_swap_enabled ∧
    (zmk_input_processor_runtime_restore_persistent trig d).active_layers =
        d.active_layers ∧
    (zmk_input_processor_runtime_restore_persistent trig d).persistent_scale_multiplier =
        d.persistent_scale_multiplier ∧
    (zmk_input_processor_runtime_restore_persistent trig d).persistent_scale_divisor =
        d.persistent_scale_divisor ∧
    (zmk_input_processor_runtime_restore_persistent trig d).persistent_rotation_degrees =
        d.persistent_rotation_degrees ∧
    (zmk_input_processor_runtime_restore_persistent trig d).persistent_axis_snap_mode =
        d.persistent_axis_snap_mode ∧
    (zmk_input_processor_runtime_restore_persistent trig d).persistent_axis_snap_threshold
        = d.persistent_axis_snap_threshold ∧
    (zmk_input_processor_runtime_restore_persistent trig
        d).persistent_axis_snap_timeout_ms = d.persistent_axis_snap_timeout_ms ∧
    (zmk_input_processor_runtime_restore_persistent trig d).persistent_x_invert =
        d.persistent_x_invert ∧
    (zmk_input_processor_runtime_restore_persistent trig d).persistent_y_invert =
        d.persistent_y_invert ∧
    (zmk_input_processor_runtime_restore_persistent trig d).persistent_temp_layer_enabled
        = d.persistent_temp_layer_enabled ∧
    (zmk_input_processor_runtime_restore_persistent trig d).persistent_temp_layer_layer =
        d.persistent_temp_layer_layer ∧
    (zmk_input_processor_runtime_restore_persistent trig
        d).persistent_temp_layer_activation_delay_ms =
        d.persistent_temp_layer_activation_delay_ms ∧
    (zmk_input_processor_runtime_restore_persistent trig
        d).persistent_temp_layer_deactivation_delay_ms =
        d.persistent_temp_layer_deactivation_delay_ms ∧
    (zmk_input_processor_runtime_restore_persistent trig
        d).persistent_xy_to_scroll_enabled = d.persistent_xy_to_scroll_enabled ∧
    (zmk_input_processor_runtime_restore_persistent trig d).persistent_xy_swap_enabled =
        d.persistent_xy_swap_enabled ∧
    (zmk_input_processor_runtime_restore_persistent trig d).persistent_active_layers =
        d.persistent_active_layers :=
  ⟨rfl, rfl, rfl, rfl, rfl, rfl, rfl, rfl, rfl, rfl, rfl, rfl, rfl, rfl, rfl, rfl,
    rfl, rfl, rfl, rfl, rfl, rfl, rfl, rfl, rfl, rfl, rfl, rfl, rfl, rfl, rfl, rfl⟩

/-- C10 (confirmed): `get_config` reports the persistent configuration copy
for every field, never the active one; in particular after a temporary
(non-persistent) rotation or scaling override the returned snapshot is
unchanged. -/
theorem get_config_reports_persistent (d : ProcData) :
    ((zmk_input_processor_runtime_get_config d).scale_multiplier =
        d.persistent_scale_multiplier ∧
     (zmk_input_processor_runtime_get_config d).scale_divisor =
        d.persistent_scale_divisor ∧
     (zmk_input_processor_runtime_get_config d).rotation_degrees =
        d.persistent_rotation_degrees ∧
     (zmk_input_processor_runtime_get_config d).temp_layer_enabled =
        d.persistent_temp_layer_enabled ∧
     (zmk_input_processor_runtime_get_config d).temp_layer_layer =
        d.persistent_temp_layer_layer ∧
     (zmk_input_processor_runtime_get_config d).temp_layer_activation_delay_ms =
        d.persistent_temp_layer_activation_delay_ms ∧
     (zmk_input_processor_runtime_get_config d).temp_layer_deactivation_delay_ms =
        d.persistent_temp_layer_deactivation_delay_ms ∧
     (zmk_input_processor_runtime_get_config d).active_layers =
        d.persistent_active_layers ∧
     (zmk_input_processor_runtime_get_config d).axis_snap_mode =
        d.persistent_axis_snap_mode ∧
     (zmk_input_processor_runtime_get_config d).axis_snap_threshold =
        d.persistent_axis_snap_threshold ∧
     (zmk_input_processor_runtime_get_config d).axis_snap_timeout_ms =
        d.persistent_axis_snap_timeout_ms ∧
     (zmk_input_processor_runtime_get_config d).xy_to_scroll_enabled =
        d.persistent_xy_to_scroll_enabled ∧
     (zmk_input_processor_runtime_get_config d).xy_swap_enabled =
        d.persistent_xy_swap_enabled ∧
     (zmk_input_processor_runtime_get_config d).x_invert = d.persistent_x_invert ∧
     (zmk_input_processor_runtime_get_config d).y_invert = d.persistent_y_invert) ∧
    (∀ trig degrees,
      zmk_input_processor_runtime_get_config
          (zmk_input_processor_runtime_set_rotation trig d degrees false).data =
        zmk_input_processor_runtime_get_config d) ∧
    (∀ m dv,
      zmk_input_processor_runtime_get_config
          (zmk_input_processor_runtime_set_scaling d m dv false).data =
        zmk_input_processor_runtime_get_config d) := by
  refine ⟨⟨rfl, rfl, rfl, rfl, rfl, rfl, rfl, rfl, rfl, rfl, rfl, rfl, rfl, rfl, rfl⟩,
    ?_, ?_⟩
  · intro trig degrees
    rfl
  · intro m dv
    by_cases h1 : 0 < m <;> by_cases h2 : 0 < dv <;>
      simp [zmk_input_processor_runtime_set_scaling,
        zmk_input_processor_runtime_get_config, h1, h2]

/-- C5, counterexample: `set_scaling` with a zero multiplier does not reject
the call — it returns success (0) and still mutates the divisor from its old
value 1 to 5. -/
theorem set_scaling_zero_counterexample :
    (zmk_input_processor_runtime_set_scaling baseData 0 5 false).ret = 0 ∧
    (zmk_input_processor_runtime_set_scaling baseData 0 5 false).data.scale_divisor = 5 ∧
    (zmk_input_processor_runtime_set_scaling baseData 0 5 false).data.scale_divisor ≠
      baseData.scale_divisor := by
  decide

/-- C5 (amended): `set_axis_snap_mode` and `set_axis_snap` reject a mode
outside {None, X, Y} synchronously with `-EINVAL` and perform no state
change, but `set_scaling` does not reject zero arguments: it always returns
success, leaves a zero-valued factor's fields unchanged, and still applies a
nonzero factor. -/
theorem setter_validation_behavior (d : ProcData) (b : Bool) :
    (∀ mode, 2 < mode →
      zmk_input_processor_runtime_set_axis_snap_mode d mode b =
        { data := d, ret := -22, save_scheduled := false, event_raised := false }) ∧
    (∀ mode threshold timeout_ms, 2 < mode →
      zmk_input_processor_runtime_set_axis_snap d mode threshold timeout_ms b =
        { data := d, ret := -22, save_scheduled := false, event_raised := false }) ∧
    (∀ m dv, (zmk_input_processor_runtime_set_scaling d m dv b).ret = 0) ∧
    (∀ dv,
      (zmk_input_processor_runtime_set_scaling d 0 dv b).data.scale_multiplier =
        d.scale_multiplier ∧
      (zmk_input_processor_runtime_set_scaling d 0 dv b).data.persistent_scale_multiplier
        = d.persistent_scale_multiplier) ∧
    (∀ m,
      (zmk_input_processor_runtime_set_scaling d m 0 b).data.scale_divisor =
        d.scale_divisor ∧
      (zmk_input_processor_runtime_set_scaling d m 0 b).data.persistent_scale_divisor =
        d.persistent_scale_divisor) ∧
    (∀ m dv, 0 < m → 0 < dv →
      (zmk_input_processor_runtime_set_scaling d m dv b).data.scale_multiplier = m ∧
      (zmk_input_processor_runtime_set_scaling d m dv b).data.scale_divisor = dv) := by
  refine ⟨?_, ?_, ?_, ?_, ?_, ?_⟩
  · intro mode h
    unfold zmk_input_processor_runtime_set_axis_snap_mode
    rw [if_pos h]
  · intro mode threshold timeout_ms h
    unfold zmk_input_processor_runtime_set_axis_snap
    rw [if_pos h]
  · intro m dv
    rfl
  · intro dv
    by_cases h2 : 0 < dv <;>
      simp [zmk_input_processor_runtime_set_scaling, h2]
  · intro m
    by_cases h1 : 0 < m <;>
      simp [zmk_input_processor_runtime_set_scaling, h1]
  · intro m dv h1 h2
    simp [zmk_input_processor_runtime_set_scaling, h1, h2]

/-- C5 witness: the amended theorem at mode 3 and scaling (0,5) / (2,3). -/
theorem setter_validation_behavior_witness :
    2 < 3 ∧
    zmk_input_processor_runtime_set_axis_snap_mode baseData 3 false =
      { data := baseData, ret := -22, save_scheduled := false, event_raised := false } ∧
    0 < 2 ∧ 0 < 3 ∧
    ((zmk_input_processor_runtime_set_scaling baseData 2 3 false).data.scale_multiplier
        = 2 ∧
      (zmk_input_processor_runtime_set_scaling baseData 2 3 false).data.scale_divisor
        = 3) :=
  ⟨by decide, (setter_validation_behavior baseData false).1 3 (by decide),
    by decide, by decide,
    (setter_validation_behavior baseData false).2.2.2.2.2 2 3 (by decide) (by decide)⟩

/-- C8 (confirmed): for every configuration setter and every field it sets,
the active copy receives the new value, while the persistent copy receives
the new value exactly when `persistent = true` and is left unchanged when
`persistent = false`. -/
theorem setters_persistent_flag_semantics (d : ProcData) (b : Bool) :
    (∀ m dv, 0 < m → 0 < dv →
      (zmk_input_processor_runtime_set_scaling d m dv b).data.scale_multiplier = m ∧
      (zmk_input_processor_runtime_set_scaling d m dv b).data.scale_divisor = dv ∧
      (zmk_input_processor_runtime_set_scaling d m dv b).data.persistent_scale_multiplier
        = (if b then m else d.persistent_scale_multiplier) ∧
      (zmk_input_processor_runtime_set_scaling d m dv b).data.persistent_scale_divisor =
        (if b then dv else d.persistent_scale_divisor)) ∧
    (∀ trig degrees,
      (zmk_input_processor_runtime_set_rotation trig d degrees b).data.rotation_degrees
        = degrees ∧
      (zmk_input_processor_runtime_set_rotation trig d degrees
          b).data.persistent_rotation_degrees =
        (if b then degrees else d.persistent_rotation_degrees)) ∧
    (∀ en layer ad dd,
      (zmk_input_processor_runtime_set_temp_layer d en layer ad dd
          b).data.temp_layer_enabled = en ∧
      (zmk_input_processor_runtime_set_temp_layer d en layer ad dd
          b).data.temp_layer_layer = layer ∧
      (zmk_input_processor_runtime_set_temp_layer d en layer ad dd
          b).data.temp_layer_activation_delay_ms = ad ∧
      (zmk_input_processor_runtime_set_temp_layer d en layer ad dd
          b).data.temp_layer_deactivation_delay_ms = dd ∧
      (zmk_input_processor_runtime_set_temp_layer d en layer ad dd
          b).data.persistent_temp_layer_enabled =
        (if b then en else d.persistent_temp_layer_enabled) ∧
      (zmk_input_processor_runtime_set_temp_layer d en layer ad dd
          b).data.persistent_temp_layer_layer =
        (if b then layer else d.persistent_temp_layer_layer) ∧
      (zmk_input_processor_runtime_set_temp_layer d en layer ad dd
          b).data.persistent_temp_layer_activation_delay_ms =
        (if b then ad else d.persistent_temp_layer_activation_delay_ms) ∧
      (zmk_input_processor_runtime_set_temp_layer d en layer ad dd
          b).data.persistent_temp_layer_deactivation_delay_ms =
        (if b then dd else d.persistent_temp_layer_deactivation_delay_ms)) ∧
    (∀ en,
      (zmk_input_processor_runtime_set_temp_layer_enabled d en
          b).data.temp_layer_enabled = en ∧
      (zmk_input_processor_runtime_set_temp_layer_enabled d en
          b).data.persistent_temp_layer_enabled =
        (if b then en else d.persistent_temp_layer_enabled)) ∧
    (∀ layer,
      (zmk_input_processor_runtime_set_temp_layer_layer d layer
          b).data.temp_layer_layer = layer ∧
      (zmk_input_processor_runtime_set_temp_layer_layer d layer
          b).data.persistent_temp_layer_layer =
        (if b then layer else d.persistent_temp_layer_layer)) ∧
    (∀ ad,
      (zmk_input_processor_runtime_set_temp_layer_activation_delay d ad
          b).data.temp_layer_activation_delay_ms = ad ∧
      (zmk_input_processor_runtime_set_temp_layer_activation_delay d ad
          b).data.persistent_temp_layer_activation_delay_ms =
        (if b then ad else d.persistent_temp_layer_activation_delay_ms)) ∧
    (∀ dd,
      (zmk_input_processor_runtime_set_temp_layer_deactivation_delay d dd
          b).data.temp_layer_deactivation_delay_ms = dd ∧
      (zmk_input_processor_runtime_set_temp_layer_deactivation_delay d dd
          b).data.persistent_temp_layer_deactivation_delay_ms =
        (if b then dd else d.persistent_temp_layer_deactivation_delay_ms)) ∧
    (∀ layers,
      (zmk_input_processor_runtime_set_active_layers d layers b).data.active_layers =
        layers ∧
      (zmk_input_processor_runtime_set_active_layers d layers
          b).data.persistent_active_layers =
        (if b then layers else d.persistent_active_layers)) ∧
    (∀ mode, mode ≤ 2 →
      (zmk_input_processor_runtime_set_axis_snap_mode d mode b).data.axis_snap_mode =
        mode ∧
      (zmk_input_processor_runtime_set_axis_snap_mode d mode
          b).data.persistent_axis_snap_mode =
        (if b then mode else d.persistent_axis_snap_mode)) ∧
    (∀ threshold,
      (zmk_input_processor_runtime_set_axis_snap_threshold d threshold
          b).data.axis_snap_threshold = threshold ∧
      (zmk_input_processor_runtime_set_axis_snap_threshold d threshold
          b).data.persistent_axis_snap_threshold =
        (if b then threshold else d.persistent_axis_snap_threshold)) ∧
    (∀ timeout_ms,
      (zmk_input_processor_runtime_set_axis_snap_timeout d timeout_ms
          b).data.axis_snap_timeout_ms = timeout_ms ∧
      (zmk_input_processor_runtime_set_axis_snap_timeout d timeout_ms
          b).data.persistent_axis_snap_timeout_ms =
        (if b then timeout_ms else d.persistent_axis_snap_timeout_ms)) ∧
    (∀ mode threshold timeout_ms, mode ≤ 2 →
      (zmk_input_processor_runtime_set_axis_snap d mode threshold timeout_ms
          b).data.axis_snap_mode = mode ∧
      (zmk_input_processor_runtime_set_axis_snap d mode threshold timeout_ms
          b).data.axis_snap_threshold = threshold ∧
      (zmk_input_processor_runtime_set_axis_snap d mode threshold timeout_ms
          b).data.axis_snap_timeout_ms = timeout_ms ∧
      (zmk_input_processor_runtime_set_axis_snap d mode threshold timeout_ms
          b).data.persistent_axis_snap_mode =
        (if b then mode else d.persistent_axis_snap_mode) ∧
      (zmk_input_processor_runtime_set_axis_snap d mode threshold timeout_ms
          b).data.persistent_axis_snap_threshold =
        (if b then threshold else d.persistent_axis_snap_threshold) ∧
      (zmk_input_processor_runtime_set_axis_snap d mode threshold timeout_ms
          b).data.persistent_axis_snap_timeout_ms =
        (if b then timeout_ms else d.persistent_axis_snap_timeout_ms)) ∧
    (∀ inv,
      (zmk_input_processor_runtime_set_x_invert d inv b).data.x_invert = inv ∧
      (zmk_input_processor_runtime_set_x_invert d inv b).data.persistent_x_invert =
        (if b then inv else d.persistent_x_invert)) ∧
    (∀ inv,
      (zmk_input_processor_runtime_set_y_invert d inv b).data.y_invert = inv ∧
      (zmk_input_processor_runtime_set_y_invert d inv b).data.persistent_y_invert =
        (if b then inv else d.persistent_y_invert)) ∧
    (∀ en,
      (zmk_input_processor_runtime_set_xy_to_scroll_enabled d en
          b).data.xy_to_scroll_enabled = en ∧
      (zmk_input_processor_runtime_set_xy_to_scroll_enabled d en
          b).data.persistent_xy_to_scroll_enabled =
        (if b then en else d.persistent_xy_to_scroll_enabled)) ∧
    (∀ en,
      (zmk_input_processor_runtime_set_xy_swap_enabled d en b).data.xy_swap_enabled =
        en ∧
      (zmk_input_processor_runtime_set_xy_swap_enabled d en
          b).data.persistent_xy_swap_enabled =
        (if b then en else d.persistent_xy_swap_enabled)) := by
  refine ⟨?_, ?_, ?_, ?_, ?_, ?_, ?_, ?_, ?_, ?_, ?_, ?_, ?_, ?_, ?_, ?_⟩
  · intro m dv h1 h2
    simp [zmk_input_processor_runtime_set_scaling, h1, h2]
  · intro trig degrees
    exact ⟨rfl, rfl⟩
  · intro en layer ad dd
    exact ⟨rfl, rfl, rfl, rfl, rfl, rfl, rfl, rfl⟩
  · intro en
    exact ⟨rfl, rfl⟩
  · intro layer
    exact ⟨rfl, rfl⟩
  · intro ad
    exact ⟨rfl, rfl⟩
  · intro dd
    exact ⟨rfl, rfl⟩
  · intro layers
    exact ⟨rfl, rfl⟩
  · intro mode h
    have hn : ¬ 2 < mode := by omega
    simp [zmk_input_processor_runtime_set_axis_snap_mode, hn]
  · intro threshold
    exact ⟨rfl, rfl⟩
  · intro timeout_ms
    exact ⟨rfl, rfl⟩
  · intro mode threshold timeout_ms h
    have hn : ¬ 2 < mode := by omega
    simp [zmk_input_processor_runtime_set_axis_snap, hn]
  · intro inv
    exact ⟨rfl, rfl⟩
  · intro inv
    exact ⟨rfl, rfl⟩
  · intro en
    exact ⟨rfl, rfl⟩
  · intro en
    exact ⟨rfl, rfl⟩

/-- C8 witness: the dual-copy discipline at concrete inputs (non-persistent
scaling 2/3 and axis-snap mode 1). -/
theorem setters_persistent_flag_semantics_witness :
    0 < 2 ∧ 0 < 3 ∧ (1 : Nat) ≤ 2 ∧
    ((zmk_input_processor_runtime_set_scaling baseData 2 3 false).data.scale_multiplier
        = 2 ∧
      (zmk_input_processor_runtime_set_scaling baseData 2 3 false).data.scale_divisor
        = 3 ∧
      (zmk_input_processor_runtime_set_scaling baseData 2 3
          false).data.persistent_scale_multiplier =
        (if false then 2 else baseData.persistent_scale_multiplier) ∧
      (zmk_input_processor_runtime_set_scaling baseData 2 3
          false).data.persistent_scale_divisor =
        (if false then 3 else baseData.persistent_scale_divisor)) ∧
    ((zmk_input_processor_runtime_set_axis_snap_mode baseData 1
          false).data.axis_snap_mode = 1 ∧
      (zmk_input_processor_runtime_set_axis_snap_mode baseData 1
          false).data.persistent_axis_snap_mode =
        (if false then 1 else baseData.persistent_axis_snap_mode)) :=
  ⟨by decide, by decide, by decide,
    (setters_persistent_flag_semantics baseData false).1 2 3 (by decide) (by decide),
    (setters_persistent_flag_semantics baseData
        false).2.2.2.2.2.2.2.2.1 1 (by decide)⟩

/-- Decay portion of the axis-snap block of `runtime_processor_handle_event`:
returns the accumulator and decay timestamp after the time-based decay
toward zero.  `decay_per_50ms` is an `int16_t` holding the unsigned division
`threshold / (timeout_ms / 50)` (when `timeout_ms < 50` the C code divides
by zero, which is undefined; Lean's `Nat` convention `x / 0 = 0` stands in
and no theorem relies on that case), and `total_decay` is its `int16_t`
product with the number of elapsed 50 ms periods. -/
def snap_decay (d : ProcData) (now : Int) : Int × Int :=
  if 0 < d.axis_snap_timeout_ms ∧ 0 < d.axis_snap_last_decay_timestamp then
    let elapsed := now - d.axis_snap_last_decay_timestamp
    if 0 < elapsed then
      let decay_periods := Int.tdiv elapsed 50
      if 0 < decay_periods then
        let dp : Int := toInt16 ((d.axis_snap_threshold / (d.axis_snap_timeout_ms / 50) : Nat) : Int)
        let decay_per : Int := if dp < 1 then 1 else dp
        let total_decay : Int := toInt16 (decay_per * decay_periods)
        let a := d.axis_snap_cross_axis_accum
        let a1 :=
          if 0 < a then
            (if toInt16 (a - total_decay) < 0 then 0 else toInt16 (a - total_decay))
          else if a < 0 then
            (if 0 < toInt16 (a + total_decay) then 0 else toInt16 (a + total_decay))
          else a
        (a1, now)
      else (d.axis_snap_cross_axis_accum, d.axis_snap_last_decay_timestamp)
    else (d.axis_snap_cross_axis_accum, d.axis_snap_last_decay_timestamp)
  else (d.axis_snap_cross_axis_accum, d.axis_snap_last_decay_timestamp)

/-- Mirror of the axis-snap block of `runtime_processor_handle_event`
(`if (data->axis_snap_mode != ... NONE && event->value != 0)`).  `ev` is the
current `event->value` (an `int32_t`); the `int16_t value` local used for
the accumulator arithmetic is its truncation.  Returns the new state and the
new `event->value` (the original value, or 0 when the cross-axis movement is
suppressed). -/
def snap_step (d : ProcData) (is_x : Bool) (ev now : Int) : ProcData × Int :=
  if d.axis_snap_mode ≠ 0 ∧ ev ≠ 0 then
    let v : Int := toInt16 ev
    let dec := snap_decay d now
    -- (accumulator, decay timestamp, outgoing event->value) after the block;
    -- the only channel fields the block writes are the two axis-snap runtime
    -- fields, so they are collected here and stored by one record update
    let res : Int × Int × Int :=
      if (d.axis_snap_mode = 1 ∧ is_x = true) ∨
          (d.axis_snap_mode = 2 ∧ is_x = false) then
        (dec.1, dec.2, ev)
      else
        let current_abs := toInt16 (if dec.1 < 0 then -dec.1 else dec.1)
        let accum1 :=
          if (d.axis_snap_threshold : Int) ≤ current_abs then
            toInt16 (current_abs + (if 0 < v then v else -v))
          else
            toInt16 (dec.1 + v)
        let abs_accum := toInt16 (if accum1 < 0 then -accum1 else accum1)
        if (d.axis_snap_threshold : Int) ≤ abs_accum then
          let accum2 :=
            if (d.axis_snap_threshold : Int) * 2 < abs_accum then
              toInt16 ((if 0 < accum1 then (d.axis_snap_threshold : Int)
                else -(d.axis_snap_threshold : Int)) * 2)
            else accum1
          (accum2, now, ev)
        else
          (accum1, now, 0)
    ({ d with
        axis_snap_cross_axis_accum := res.1,
        axis_snap_last_decay_timestamp := res.2.1 }, res.2.2)
  else (d, ev)

/-- Iterated axis-snap step over a sample sequence on a fixed axis at a fixed
timestamp, collecting the emitted values. -/
def snap_run (d : ProcData) (is_x : Bool) (now : Int) : List Int → ProcData × List Int
  | [] => (d, [])
  | v :: vs =>
    let p := snap_step d is_x v now
    let q := snap_run p.1 is_x now vs
    (q.1, p.2 :: q.2)

/-- The running signed sum of the sequence, started at `acc`, stays strictly
below `T` in magnitude at every step. -/
def staysBelow (T : Nat) (acc : Int) : List Int → Bool
  | [] => true
  | v :: vs => decide ((acc + v).natAbs < T) && staysBelow T (acc + v) vs

/-- Mirror of `zmk_input_processor_runtime_temp_layer_keep_active`: stores
the flag, and when clearing it with the temp layer enabled and active,
reschedules the deactivation work with `K_NO_WAIT` (delay 0).  The second
component is the delay of the rescheduled deactivation work, if any. -/
def zmk_input_processor_runtime_temp_layer_keep_active (d : ProcData)
    (keep_active : Bool) : ProcData × Option Nat :=
  let d1 := { d with temp_layer_keep_active := keep_active }
  if keep_active = false ∧ d1.temp_layer_enabled = true ∧
      d1.temp_layer_layer_active = true then
    (d1, some 0)
  else
    (d1, none)

/-- Mirror of `temp_layer_deactivation_work_handler`: fires the deactivation
work; `deactivate_ok` abstracts the result of the
`zmk_keymap_layer_deactivate` collaborator.  Returns the new state and
whether the collaborator was called. -/
def temp_layer_deactivation_work_fire (d : ProcData) (deactivate_ok : Bool) :
    ProcData × Bool :=
  if d.temp_layer_layer_active = false ∨ d.temp_layer_keep_active = true then
    (d, false)
  else if deactivate_ok then
    ({ d with temp_layer_layer_active := false }, true)
  else
    (d, true)

/-- Output of one `runtime_processor_handle_event` call: the new channel
state, the outgoing `event->value`, the new carried remainder, whether the
activation work was scheduled (`K_NO_WAIT`), and the delay of the
deactivation work if it was rescheduled.  The code-mapping block only
rewrites `event->code` (X/Y to scroll or swapped codes) and never the value,
so the outgoing code is not modelled here. -/
structure EventOut where
  data : ProcData
  value : Int
  rem : Int
  activation_scheduled : Bool
  deactivation_delay : Option Nat
deriving DecidableEq

/-- Mirror of `runtime_processor_handle_event` after the event-type and code
classification: `layer_gate` is the result of
`is_processor_active_for_current_layers` (a query on the external keymap),
`is_x` the axis classification of `event->code`, `value0` the incoming
`event->value` and `rem` the per-axis carried remainder. -/
def runtime_processor_handle_event (d0 : ProcData) (layer_gate : Bool) (is_x : Bool)
    (value0 : Int) (now : Int) (rem : Int) : EventOut :=
  if layer_gate = false then
    { data := d0, value := value0, rem := rem,
      activation_scheduled := false, deactivation_delay := none }
  else
    let v1 : Int := toInt16 value0
    let d1 :=
      if d0.temp_layer_enabled = true ∧ value0 ≠ 0 then
        { d0 with last_input_timestamp := now }
      else d0
    let act : Bool :=
      decide (d1.temp_layer_enabled = true ∧ value0 ≠ 0 ∧
        d1.temp_layer_layer_active = false ∧
        (d1.last_keypress_timestamp = 0 ∨
          (d1.temp_layer_activation_delay_ms : Int) ≤ now - d1.last_keypress_timestamp))
    let rot := if d1.rotation_degrees ≠ 0 then rotation_step d1 is_x v1 else (d1, value0)
    let ev3 :=
      if (is_x = true ∧ rot.1.x_invert = true) ∨ (is_x = false ∧ rot.1.y_invert = true)
      then -rot.2 else rot.2
    let snap := snap_step rot.1 is_x ev3 now
    let sc :=
      if 0 < snap.1.scale_multiplier ∧ 0 < snap.1.scale_divisor then
        scale_val snap.2 snap.1.scale_multiplier snap.1.scale_divisor rem
      else (snap.2, rem)
    let deact :=
      if snap.1.temp_layer_enabled = true ∧ snap.1.temp_layer_layer_active = true ∧
          snap.1.temp_layer_keep_active = false then
        some snap.1.temp_layer_deactivation_delay_ms
      else none
    { data := snap.1, value := sc.1, rem := sc.2,
      activation_scheduled := act, deactivation_delay := deact }

theorem rotation_step_keep (d : ProcData) (b : Bool) (v : Int) :
    (rotation_step d b v).1.temp_layer_keep_active = d.temp_layer_keep_active := by
  cases b <;> cases hx : d.has_x <;> cases hy : d.has_y <;>
    simp [rotation_step, hx, hy]

theorem snap_step_keep (d : ProcData) (b : Bool) (ev now : Int) :
    (snap_step d b ev now).1.temp_layer_keep_active = d.temp_layer_keep_active := by
  unfold snap_step
  split
  · rfl
  · rfl

theorem handle_event_keep_no_deact {d : ProcData}
    (h : d.temp_layer_keep_active = true) (gate is_x : Bool) (v now rem : Int) :
    (runtime_processor_handle_event d gate is_x v now rem).deactivation_delay = none := by
  cases gate with
  | false => rfl
  | true =>
    by_cases h1 : d.temp_layer_enabled = true ∧ v ≠ 0 <;>
      by_cases h2 : d.rotation_degrees ≠ 0 <;>
        simp [runtime_processor_handle_event, h1, h2, snap_step_keep,
          rotation_step_keep, h]

/-- Channel state with the temp layer enabled, active and held by
`keep_active`. -/
def keepActiveData : ProcData :=
  { baseData with
    temp_layer_enabled := true, temp_layer_layer_active := true,
    temp_layer_keep_active := true }

/-- C4, counterexample: clearing `keep_active` while the temp layer is active
reschedules the deactivation work with `K_NO_WAIT` (delay 0), not with the
configured `deactivation_delay_ms` (500 here). -/
theorem keep_active_delay_counterexample :
    (zmk_input_processor_runtime_temp_layer_keep_active keepActiveData false).2 =
      some 0 ∧
    (zmk_input_processor_runtime_temp_layer_keep_active keepActiveData false).2 ≠
      some keepActiveData.temp_layer_deactivation_delay_ms := by
  decide

/-- C4 (amended): setting `keep_active` true schedules nothing and suppresses
all deactivation — the pipeline never reschedules the deactivation work and a
pending deactivation fires as a no-op — while clearing `keep_active` with the
temp layer enabled and active reschedules the deactivation work to fire
immediately (`K_NO_WAIT`, delay 0), not `deactivation_delay_ms` from now. -/
theorem keep_active_semantics (d : ProcData) :
    (zmk_input_processor_runtime_temp_layer_keep_active d true).2 = none ∧
    (∀ gate is_x : Bool, ∀ v now rem : Int,
      (runtime_processor_handle_event
          (zmk_input_processor_runtime_temp_layer_keep_active d true).1
          gate is_x v now rem).deactivation_delay = none) ∧
    (∀ ok : Bool,
      (temp_layer_deactivation_work_fire
          (zmk_input_processor_runtime_temp_layer_keep_active d true).1 ok).2 = false) ∧
    (d.temp_layer_enabled = true → d.temp_layer_layer_active = true →
      (zmk_input_processor_runtime_temp_layer_keep_active d false).2 = some 0) := by
  refine ⟨rfl, ?_, ?_, ?_⟩
  · intro gate is_x v now rem
    exact handle_event_keep_no_deact rfl gate is_x v now rem
  · intro ok
    simp [temp_layer_deactivation_work_fire,
      zmk_input_processor_runtime_temp_layer_keep_active]
  · intro hen hact
    simp [zmk_input_processor_runtime_temp_layer_keep_active, hen, hact]

/-- C4 witness: the amended theorem at a concrete enabled/active state. -/
theorem keep_active_semantics_witness :
    keepActiveData.temp_layer_enabled = true ∧
    keepActiveData.temp_layer_layer_active = true ∧
    (zmk_input_processor_runtime_temp_layer_keep_active keepActiveData false).2 =
      some 0 :=
  ⟨by decide, by decide,
    (keep_active_semantics keepActiveData).2.2.2 (by decide) (by decide)⟩

theorem snap_decay_noop {d : ProcData} {now : Int}
    (h : d.axis_snap_last_decay_timestamp = now) :
    snap_decay d now =
      (d.axis_snap_cross_axis_accum, d.axis_snap_last_decay_timestamp) := by
  have h0 : now - d.axis_snap_last_decay_timestamp = 0 := by omega
  unfold snap_decay
  split
  · simp [h0]
  · rfl

/-- One cross-axis sample in the snapped regime: with no decay pending and an
accumulator whose running sum stays strictly under the threshold, the sample
is accumulated signed and suppressed to 0. -/
theorem snap_step_cross_snapped {d : ProcData} {ev now : Int} {T : Nat}
    (hmode : d.axis_snap_mode = 1) (hthr : d.axis_snap_threshold = T)
    (hdec : d.axis_snap_last_decay_timestamp = now)
    (hT16 : T ≤ 32767)
    (hev1 : -32768 ≤ ev) (hev2 : ev ≤ 32767) (hev : ev ≠ 0)
    (ha : d.axis_snap_cross_axis_accum.natAbs < T)
    (hsum : (d.axis_snap_cross_axis_accum + ev).natAbs < T) :
    snap_step d false ev now =
      ({ d with
          axis_snap_cross_axis_accum := d.axis_snap_cross_axis_accum + ev,
          axis_snap_last_decay_timestamp := now }, 0) := by
  have hker := @snap_decay_noop d now hdec
  set a := d.axis_snap_cross_axis_accum with haeq
  have hv : toInt16 ev = ev := toInt16_eq_self hev1 hev2
  have hca : toInt16 (if a < 0 then -a else a) = if a < 0 then -a else a := by
    apply toInt16_eq_self <;> (split <;> omega)
  have hsum16 : toInt16 (a + ev) = a + ev := by
    apply toInt16_eq_self <;> omega
  have hca2 : toInt16 (if a + ev < 0 then -(a + ev) else a + ev) =
      if a + ev < 0 then -(a + ev) else a + ev := by
    apply toInt16_eq_self <;> (split <;> omega)
  have hnot1 : ¬ ((T : Int) ≤ if a < 0 then -a else a) := by
    split <;> omega
  have hnot2 : ¬ ((T : Int) ≤ if a + ev < 0 then -(a + ev) else a + ev) := by
    split <;> omega
  have hca2n : toInt16 (if a + ev < 0 then -ev + -a else a + ev) =
      if a + ev < 0 then -ev + -a else a + ev := by
    apply toInt16_eq_self <;> (split <;> omega)
  have hnot2n : ¬ ((T : Int) ≤ if a + ev < 0 then -ev + -a else a + ev) := by
    split <;> omega
  simp only [snap_step, hker, hmode, hthr, ← haeq, hv, hca, hsum16, hca2]
  simp [hev, hnot1, hnot2, hca2n, hnot2n, hdec]

/-- One cross-axis sample in the unsnapped regime: with no decay pending and
an accumulator magnitude in `[T, 2T]`, the sample passes through unmodified
and the accumulator magnitude stays in `[T, 2T]` (the cap keeps it at most
`2T`). -/
theorem snap_step_cross_unsnapped {d : ProcData} {ev now : Int} {T : Nat}
    (hmode : d.axis_snap_mode = 1) (hthr : d.axis_snap_threshold = T)
    (hdec : d.axis_snap_last_decay_timestamp = now)
    (hT : 0 < T) (hT2 : 2 * T ≤ 32767)
    (hevb : ev.natAbs ≤ 32767 - 2 * T)
    (haL : T ≤ d.axis_snap_cross_axis_accum.natAbs)
    (haU : d.axis_snap_cross_axis_accum.natAbs ≤ 2 * T) :
    (snap_step d false ev now).2 = ev ∧
    ∃ A : Int,
      (snap_step d false ev now).1 =
        { d with
            axis_snap_cross_axis_accum := A,
            axis_snap_last_decay_timestamp := now } ∧
      T ≤ A.natAbs ∧ A.natAbs ≤ 2 * T := by
  rcases eq_or_ne ev 0 with h0 | h0
  · subst h0
    have h1 : snap_step d false 0 now = (d, 0) := by simp [snap_step]
    refine ⟨by rw [h1], d.axis_snap_cross_axis_accum, ?_, haL, haU⟩
    rw [h1, ← hdec]
  · have hker := @snap_decay_noop d now hdec
    set a := d.axis_snap_cross_axis_accum with haeq
    have hv : toInt16 ev = ev := by
      apply toInt16_eq_self <;> omega
    have hca : toInt16 (if a < 0 then -a else a) = if a < 0 then -a else a := by
      apply toInt16_eq_self <;> (split <;> omega)
    have hyes1 : (T : Int) ≤ if a < 0 then -a else a := by
      split <;> omega
    have habs2 : toInt16 ((if a < 0 then -a else a) + if 0 < ev then ev else -ev) =
        (if a < 0 then -a else a) + if 0 < ev then ev else -ev := by
      apply toInt16_eq_self <;> (split <;> split <;> omega)
    set S : Int := (if a < 0 then -a else a) + if 0 < ev then ev else -ev with hSeq
    have hSge : (T : Int) ≤ S := by
      rw [hSeq]
      split <;> split <;> omega
    have hSle : S ≤ 32767 := by
      rw [hSeq]
      split <;> split <;> omega
    have hSpos : 0 < S := by omega
    have habs3 : toInt16 (if S < 0 then -S else S) = S := by
      rw [if_neg (by omega)]
      apply toInt16_eq_self <;> omega
    have hcapv2 : toInt16 (if 0 < S then (T : Int) * 2 else -((T : Int) * 2)) =
        (T : Int) * 2 := by
      rw [if_pos hSpos]
      apply toInt16_eq_self <;> omega
    have hcapv3 : toInt16 ((T : Int) * 2) = (T : Int) * 2 := by
      apply toInt16_eq_self <;> omega
    by_cases hcap : (T : Int) * 2 < S
    · refine ⟨?_, (T : Int) * 2, ?_, by omega, by omega⟩
      · simp only [snap_step, hker, hmode, hthr, ← haeq, hv, hca, habs2, ← hSeq,
          habs3]
        simp [h0, hyes1, hSge, hSpos, hcap, habs3, hcapv2, hcapv3]
      · simp only [snap_step, hker, hmode, hthr, ← haeq, hv, hca, habs2, ← hSeq,
          habs3]
        simp [h0, hyes1, hSge, hSpos, hcap, habs3, hcapv2, hcapv3]
    · refine ⟨?_, S, ?_, by omega, by omega⟩
      · simp only [snap_step, hker, hmode, hthr, ← haeq, hv, hca, habs2, ← hSeq,
          habs3]
        simp [h0, hyes1, hSge, hSpos, hcap, habs3, hcapv2, hcapv3]
      · simp only [snap_step, hker, hmode, hthr, ← haeq, hv, hca, habs2, ← hSeq,
          habs3]
        simp [h0, hyes1, hSge, hSpos, hcap, habs3, hcapv2, hcapv3]

theorem snap_run_suppresses {T : Nat} {now : Int} (hT : 0 < T) (hT16 : T ≤ 32767) :
    ∀ (vs : List Int) (d : ProcData),
      d.axis_snap_mode = 1 → d.axis_snap_threshold = T →
      d.axis_snap_last_decay_timestamp = now →
      (∀ v ∈ vs, -32768 ≤ v ∧ v ≤ 32767) →
      staysBelow T d.axis_snap_cross_axis_accum vs = true →
      d.axis_snap_cross_axis_accum.natAbs < T →
      ∀ y ∈ (snap_run d false now vs).2, y = 0 := by
  intro vs
  induction vs with
  | nil =>
    intro d _ _ _ _ _ _ y hy
    simp [snap_run] at hy
  | cons v vs ih =>
    intro d hmode hthr hdec hbound hstays ha
    have hb := hbound v (List.mem_cons_self _ _)
    have hbtail : ∀ w ∈ vs, -32768 ≤ w ∧ w ≤ 32767 :=
      fun w hw => hbound w (List.mem_cons_of_mem _ hw)
    rw [staysBelow, Bool.and_eq_true, decide_eq_true_eq] at hstays
    obtain ⟨hs1, hs2⟩ := hstays
    rcases eq_or_ne v 0 with hv0 | hv0
    · subst hv0
      have hstep : snap_step d false 0 now = (d, 0) := by simp [snap_step]
      intro y hy
      have hrun : snap_run d false now (0 :: vs) =
          ((snap_run (snap_step d false 0 now).1 false now vs).1,
            (snap_step d false 0 now).2 ::
              (snap_run (snap_step d false 0 now).1 false now vs).2) := rfl
      rw [hrun, hstep] at hy
      simp only [List.mem_cons] at hy
      rcases hy with h | h
      · exact h
      · exact ih d hmode hthr hdec hbtail (by simpa using hs2) ha y h
    · have hstep := snap_step_cross_snapped hmode hthr hdec hT16 hb.1 hb.2 hv0 ha hs1
      intro y hy
      have hrun : snap_run d false now (v :: vs) =
          ((snap_run (snap_step d false v now).1 false now vs).1,
            (snap_step d false v now).2 ::
              (snap_run (snap_step d false v now).1 false now vs).2) := rfl
      rw [hrun, hstep] at hy
      simp only [List.mem_cons] at hy
      rcases hy with h | h
      · exact h
      · exact ih
          { d with
            axis_snap_cross_axis_accum := d.axis_snap_cross_axis_accum + v,
            axis_snap_last_decay_timestamp := now }
          hmode hthr rfl hbtail hs2 hs1 y h

theorem snap_run_passthrough {T : Nat} {now : Int} (hT : 0 < T) (hT2 : 2 * T ≤ 32767) :
    ∀ (vs : List Int) (d : ProcData),
      d.axis_snap_mode = 1 → d.axis_snap_threshold = T →
      d.axis_snap_last_decay_timestamp = now →
      (∀ v ∈ vs, v.natAbs ≤ 32767 - 2 * T) →
      T ≤ d.axis_snap_cross_axis_accum.natAbs →
      d.axis_snap_cross_axis_accum.natAbs ≤ 2 * T →
      (snap_run d false now vs).2 = vs := by
  intro vs
  induction vs with
  | nil => intro d _ _ _ _ _ _; rfl
  | cons v vs ih =>
    intro d hmode hthr hdec hbound hL hU
    obtain ⟨hout, A, hstate, hAL, hAU⟩ :=
      snap_step_cross_unsnapped hmode hthr hdec hT hT2
        (hbound v (List.mem_cons_self _ _)) hL hU
    have hbtail : ∀ w ∈ vs, w.natAbs ≤ 32767 - 2 * T :=
      fun w hw => hbound w (List.mem_cons_of_mem _ hw)
    have hrun : snap_run d false now (v :: vs) =
        ((snap_run (snap_step d false v now).1 false now vs).1,
          (snap_step d false v now).2 ::
            (snap_run (snap_step d false v now).1 false now vs).2) := rfl
    rw [hrun, hout, hstate]
    show v :: (snap_run
        { d with
          axis_snap_cross_axis_accum := A,
          axis_snap_last_decay_timestamp := now } false now vs).2 = v :: vs
    rw [ih
      { d with
        axis_snap_cross_axis_accum := A,
        axis_snap_last_decay_timestamp := now }
      hmode hthr rfl hbtail hAL hAU]

/-- Concrete snap state: X-locked mode with threshold 20000 and a zeroed
accumulator, decay timer idle. -/
def snapOverflowData : ProcData :=
  { baseData with
    axis_snap_mode := 1, axis_snap_threshold := 20000,
    axis_snap_timeout_ms := 1000,
    axis_snap_cross_axis_accum := 0, axis_snap_last_decay_timestamp := 0 }

/-- C6, counterexample: with threshold 20000, the cross-axis samples
20000 then 32000 should, per the claim, be emitted as 20000 (magnitude
reached the threshold) and then 32000 (passed through).  The code's
`int16_t` accumulator wraps (`20000 + 32000 = 52000` becomes `-13536`, of
magnitude 13536 < 20000), so the second sample is suppressed to 0 instead of
being passed through. -/
theorem axis_snap_overflow_counterexample :
    (snap_run snapOverflowData false 0 [20000, 32000]).2 = [20000, 0] ∧
    ([20000, (0 : Int)] ≠ [20000, 32000]) := by
  decide

/-- C6 (amended): with axis snap locked to X (threshold `T`, `2T ≤ 32767`)
and no decay elapsed, every cross-axis (`int16_t`) sample sequence whose
running accumulated magnitude stays below `T` is emitted entirely as zeros,
and from any unsnapped state (accumulator magnitude in `[T, 2T]`, where the
cap places it once the threshold is reached), cross-axis samples bounded by
`32767 - 2T` (so the `int16_t` accumulator cannot wrap) are passed through
with their values unmodified by the snap step. -/
theorem axis_snap_suppress_and_passthrough (T : Nat) (now : Int) (d : ProcData)
    (hT : 0 < T) (hT2 : 2 * T ≤ 32767)
    (hmode : d.axis_snap_mode = 1) (hthr : d.axis_snap_threshold = T)
    (hdec : d.axis_snap_last_decay_timestamp = now) :
    (∀ vs : List Int, (∀ v ∈ vs, -32768 ≤ v ∧ v ≤ 32767) →
      d.axis_snap_cross_axis_accum = 0 →
      staysBelow T 0 vs = true →
      ∀ y ∈ (snap_run d false now vs).2, y = 0) ∧
    (∀ vs : List Int, (∀ v ∈ vs, v.natAbs ≤ 32767 - 2 * T) →
      T ≤ d.axis_snap_cross_axis_accum.natAbs →
      d.axis_snap_cross_axis_accum.natAbs ≤ 2 * T →
      (snap_run d false now vs).2 = vs) := by
  constructor
  · intro vs hbound hzero hstays
    exact snap_run_suppresses hT (by omega) vs d hmode hthr hdec hbound
      (by rw [hzero]; exact hstays) (by rw [hzero]; simpa using hT)
  · intro vs hbound hL hU
    exact snap_run_passthrough hT hT2 vs d hmode hthr hdec hbound hL hU

/-- Concrete snap state for the witness: threshold 2, accumulator 0. -/
def snapSmallData : ProcData :=
  { baseData with
    axis_snap_mode := 1, axis_snap_threshold := 2,
    axis_snap_cross_axis_accum := 0, axis_snap_last_decay_timestamp := 0 }

/-- C6 witness: the amended theorem at threshold 2 with the below-threshold
sequence `[1, -1]` (all suppressed). -/
theorem axis_snap_suppress_and_passthrough_witness :
    0 < 2 ∧ 2 * 2 ≤ 32767 ∧
    snapSmallData.axis_snap_mode = 1 ∧ snapSmallData.axis_snap_threshold = 2 ∧
    snapSmallData.axis_snap_last_decay_timestamp = 0 ∧
    (∀ v ∈ [(1 : Int), -1], -32768 ≤ v ∧ v ≤ 32767) ∧
    snapSmallData.axis_snap_cross_axis_accum = 0 ∧
    staysBelow 2 0 [(1 : Int), -1] = true ∧
    ∀ y ∈ (snap_run snapSmallData false 0 [(1 : Int), -1]).2, y = 0 :=
  ⟨by decide, by decide, by decide, by decide, by decide, by decide, by decide,
    by decide,
    (axis_snap_suppress_and_passthrough 2 0 snapSmallData (by decide) (by decide)
        (by decide) (by decide) (by decide)).1
      [(1 : Int), -1] (by decide) (by decide) (by decide)⟩

/-- Behavior identity of a keymap binding, as distinguished by
`position_state_changed_listener`: the transparent behavior, the plain
key-press behavior (`&kp`), or anything else (detected through the device
pointers / names of the external behavior collaborator). -/
inductive BehaviorKind
  | transparentB
  | kpB
  | otherB
deriving DecidableEq

/-- A keymap binding at the pressed position: its behavior identity and its
first parameter (the encoded keycode for `&kp`). -/
structure BehaviorBinding where
  kind : BehaviorKind
  param1 : Nat
deriving DecidableEq

/-- The walk of `position_state_changed_listener` over
`layer_idx = ZMK_KEYMAP_LAYERS_LEN - 1 .. 0`: each entry is an (active?,
binding at this position) pair of the external keymap, ordered from highest
layer to lowest; the first binding of an active layer that is present and
non-transparent is the resolved binding. -/
def resolve_nontransparent :
    List (Bool × Option BehaviorBinding) → Option BehaviorBinding
  | [] => none
  | (active, b) :: rest =>
    if active = true then
      match b with
      | some bd =>
        if bd.kind = BehaviorKind.transparentB then resolve_nontransparent rest
        else some bd
      | none => resolve_nontransparent rest
    else resolve_nontransparent rest

/-- Usage page extracted from an encoded `&kp` parameter, with the fallback
to the keyboard page 0x07 when zero (`ZMK_HID_USAGE_PAGE` and the
`HID_USAGE_KEY` fallback of the external `zmk/hid.h` encoding). -/
def binding_usage_page (param1 : Nat) : Nat :=
  if param1 / 65536 % 256 = 0 then 7 else param1 / 65536 % 256

/-- The recomposed `ZMK_HID_USAGE(page, id)` value compared against the
configured `temp-layer-keep-keycodes` list. -/
def binding_usage (param1 : Nat) : Nat :=
  binding_usage_page param1 * 65536 + param1 % 65536

/-- Action taken for one processor by the key-position-press listener. -/
inductive TempLayerAction
  | keepLayer
  | deactivateLayer
deriving DecidableEq

/-- Whether the press should keep or dismiss the temp layer, given the
resolved binding: for a `&kp` binding, when a keep-keycodes list is
configured only membership in it counts; only when the list is empty does
the `is_mod` fallback apply (`im` abstracts the external `is_mod` query). -/
def temp_layer_resolve_action (keep : List Nat) (im : Nat → Nat → Bool)
    (layers : List (Bool × Option BehaviorBinding)) : TempLayerAction :=
  match resolve_nontransparent layers with
  | some rb =>
    if rb.kind = BehaviorKind.kpB then
      if 0 < keep.length then
        if binding_usage rb.param1 ∈ keep then TempLayerAction.keepLayer
        else TempLayerAction.deactivateLayer
      else
        if im (binding_usage_page rb.param1) (rb.param1 % 65536) then
          TempLayerAction.keepLayer
        else TempLayerAction.deactivateLayer
    else TempLayerAction.deactivateLayer
  | none => TempLayerAction.deactivateLayer

/-- The per-processor decision of `position_state_changed_listener` on a
key-position press: `keepLayer` when the iteration `continue`s (processor
disabled, layer inactive, held active, own non-transparent binding, or a
kept key-press); `deactivateLayer` when it cancels the pending deactivation
work and deactivates the layer immediately.  `temp_binding` is the temp
layer's own binding at the position. -/
def position_press_action (keep : List Nat) (im : Nat → Nat → Bool) (d : ProcData)
    (temp_binding : Option BehaviorBinding)
    (layers : List (Bool × Option BehaviorBinding)) : TempLayerAction :=
  if d.temp_layer_enabled = false ∨ d.temp_layer_layer_active = false ∨
      d.temp_layer_keep_active = true then
    TempLayerAction.keepLayer
  else
    match temp_binding with
    | some b =>
      if b.kind ≠ BehaviorKind.transparentB then TempLayerAction.keepLayer
      else temp_layer_resolve_action keep im layers
    | none => temp_layer_resolve_action keep im layers

/-- Modelled after the external collaborator `is_mod` of `zmk/keys.h`: true
exactly for the eight HID modifier usages 0xE0..0xE7 (224..231) on the
keyboard usage page 0x07.  It only instantiates the abstract `im` parameter
in concrete evaluations; the theorems hold for every such predicate. -/
def is_mod_model (page id : Nat) : Bool :=
  page = 7 && (224 ≤ id && id ≤ 231)

/-- A transparent binding (the temp layer's own assignment at the pressed
position in the scenarios below). -/
def transparentBinding : BehaviorBinding :=
  { kind := BehaviorKind.transparentB, param1 := 0 }

/-- A `&kp LEFT_CONTROL` binding: encoded keycode 0xE0 (a modifier). -/
def kpModifierBinding : BehaviorBinding :=
  { kind := BehaviorKind.kpB, param1 := 224 }

/-- Channel state with the temp layer enabled and active, not held. -/
def pressActiveData : ProcData :=
  { baseData with
    temp_layer_enabled := true, temp_layer_layer_active := true,
    temp_layer_keep_active := false }

/-- C9, counterexample: the resolved binding is a plain key-press whose
keycode 0xE0 is a modifier (`is_mod` is true for it), yet because a
keep-keycodes list is configured and does not contain its usage, the code
deactivates the temp layer — the configured keep list replaces the modifier
check instead of extending it, contradicting the claim's "is a modifier or
is explicitly listed". -/
theorem temp_layer_keep_list_counterexample :
    is_mod_model (binding_usage_page kpModifierBinding.param1)
      (kpModifierBinding.param1 % 65536) = true ∧
    position_press_action [458977] is_mod_model pressActiveData
        (some transparentBinding) [(true, some kpModifierBinding)] =
      TempLayerAction.deactivateLayer := by
  decide

/-- C9 (amended): on a key-position press while the temp layer is active
(enabled, not held) with a transparent temp-layer binding at that position,
if the first non-transparent binding found walking active layers from
highest to lowest is a plain key-press, then: when a keep-keycodes list is
configured, the temp layer is kept exactly when the binding's usage is in
the list; when no list is configured, it is kept exactly when the keycode is
a modifier.  In every other case the pending deactivation task is cancelled
and the layer is deactivated immediately. -/
theorem temp_layer_press_resolution (keep : List Nat) (im : Nat → Nat → Bool)
    (d : ProcData) (tb : BehaviorBinding)
    (layers : List (Bool × Option BehaviorBinding)) (rb : BehaviorBinding)
    (hen : d.temp_layer_enabled = true) (hact : d.temp_layer_layer_active = true)
    (hka : d.temp_layer_keep_active = false)
    (htb : tb.kind = BehaviorKind.transparentB)
    (hres : resolve_nontransparent layers = some rb) :
    position_press_action keep im d (some tb) layers =
      (if rb.kind = BehaviorKind.kpB ∧
          (if 0 < keep.length then binding_usage rb.param1 ∈ keep
           else im (binding_usage_page rb.param1) (rb.param1 % 65536) = true)
        then TempLayerAction.keepLayer else TempLayerAction.deactivateLayer) := by
  unfold position_press_action
  rw [if_neg (by simp [hen, hact, hka])]
  have htrans : ¬ tb.kind ≠ BehaviorKind.transparentB := by simp [htb]
  simp only [htrans, ite_false, if_neg htrans]
  unfold temp_layer_resolve_action
  rw [hres]
  by_cases hk : rb.kind = BehaviorKind.kpB
  · by_cases hl : 0 < keep.length
    · by_cases hm : binding_usage rb.param1 ∈ keep <;> simp [hk, hl, hm]
    · by_cases hm : im (binding_usage_page rb.param1) (rb.param1 % 65536) = true <;>
        simp [hk, hl, hm]
  · simp [hk]

/-- C9 witness: the amended theorem with no keep list configured and the
resolved `&kp` modifier binding (the layer is kept). -/
theorem temp_layer_press_resolution_witness :
    pressActiveData.temp_layer_enabled = true ∧
    pressActiveData.temp_layer_layer_active = true ∧
    pressActiveData.temp_layer_keep_active = false ∧
    transparentBinding.kind = BehaviorKind.transparentB ∧
    resolve_nontransparent [(true, some kpModifierBinding)] = some kpModifierBinding ∧
    position_press_action [] is_mod_model pressActiveData (some transparentBinding)
        [(true, some kpModifierBinding)] =
      (if kpModifierBinding.kind = BehaviorKind.kpB ∧
          (if 0 < List.length ([] : List Nat) then
            binding_usage kpModifierBinding.param1 ∈ ([] : List Nat)
           else is_mod_model (binding_usage_page kpModifierBinding.param1)
              (kpModifierBinding.param1 % 65536) = true)
        then TempLayerAction.keepLayer else TempLayerAction.deactivateLayer) :=
  ⟨by decide, by decide, by decide, by decide, by decide,
    temp_layer_press_resolution [] is_mod_model pressActiveData transparentBinding
      [(true, some kpModifierBinding)] kpModifierBinding (by decide) (by decide)
      (by decide) (by decide) (by decide)⟩
